import Mathlib

/-!
Verification development for the calculation engine of the
developer-experience-roi-calculator repository: the `InputValidator` and
`BusinessModelCalculator` services (src/services/InputValidator.ts and
src/services/BusinessModelCalculator.ts), shallowly embedded in Lean 4.

Modelling conventions:
* A JavaScript `number` is modelled by `JSNum`: `NaN`, the two infinities,
  or an exact rational. Floating-point rounding is not modelled (the
  formulas under verification are stated in exact arithmetic); the special
  values NaN and ±Infinity, whose propagation the validator must guard
  against, are modelled explicitly. The negative zero is identified with 0.
* A JavaScript error-mapping object (`ValidationErrors`) is modelled as an
  association list in insertion order; `objInsert` has JS property-set
  semantics (overwrite in place if the key is present, append otherwise)
  and `objAssign` models `Object.assign`.
* `throw` is modelled by `Except String`.
* `toLocaleString` digit grouping inside interpolated message strings is
  abstracted by `fmtNum` (plain rendering); no verified property depends
  on the text of a message that interpolates a scenario value.
-/

/-- A JavaScript number: NaN, +Infinity, -Infinity, or a finite value
(modelled as an exact rational). -/
inductive JSNum where
  | nan : JSNum
  | posInf : JSNum
  | negInf : JSNum
  | num : ℚ → JSNum
deriving DecidableEq, Repr

namespace JSNum

/-- The JavaScript global `isNaN` on a number argument. -/
def isNaN : JSNum → Bool
  | nan => true
  | _ => false

/-- JavaScript `<` on numbers: any comparison with NaN is false;
-Infinity is below and +Infinity above every finite value. -/
def jlt : JSNum → JSNum → Bool
  | nan, _ => false
  | _, nan => false
  | num a, num b => decide (a < b)
  | negInf, negInf => false
  | negInf, _ => true
  | _, negInf => false
  | posInf, _ => false
  | num _, posInf => true

/-- JavaScript `>` on numbers. -/
def jgt (a b : JSNum) : Bool := jlt b a

/-- JavaScript `<=` on numbers: false if either side is NaN, otherwise
the negation of `>`. -/
def jle (a b : JSNum) : Bool := !a.isNaN && !b.isNaN && !jlt b a

/-- `Number.isInteger`: false for NaN and the infinities, and for a finite
value true exactly when it has no fractional part. -/
def isInteger : JSNum → Bool
  | num q => q.den == 1
  | _ => false

/-- JavaScript multiplication: NaN propagates, Infinity × 0 is NaN,
otherwise infinities follow the sign rule and finite values multiply
exactly. -/
def jmul : JSNum → JSNum → JSNum
  | nan, _ => nan
  | _, nan => nan
  | num a, num b => num (a * b)
  | posInf, posInf => posInf
  | posInf, negInf => negInf
  | negInf, posInf => negInf
  | negInf, negInf => posInf
  | posInf, num b => if 0 < b then posInf else if b < 0 then negInf else nan
  | num a, posInf => if 0 < a then posInf else if a < 0 then negInf else nan
  | negInf, num b => if 0 < b then negInf else if b < 0 then posInf else nan
  | num a, negInf => if 0 < a then negInf else if a < 0 then posInf else nan

/-- JavaScript division: NaN propagates, Infinity/Infinity and 0/0 are NaN,
a nonzero finite value divided by 0 is a signed infinity, a finite value
divided by an infinity is 0, and finite values divide exactly.
(Negative zero is identified with 0, so x/0 takes the sign of x.) -/
def jdiv : JSNum → JSNum → JSNum
  | nan, _ => nan
  | _, nan => nan
  | posInf, posInf => nan
  | posInf, negInf => nan
  | negInf, posInf => nan
  | negInf, negInf => nan
  | posInf, num b => if b < 0 then negInf else posInf
  | negInf, num b => if b < 0 then posInf else negInf
  | num _, posInf => num 0
  | num _, negInf => num 0
  | num a, num b =>
      if b = 0 then (if a = 0 then nan else if 0 < a then posInf else negInf)
      else num (a / b)

/-- JavaScript subtraction: NaN propagates, ∞ − ∞ is NaN, otherwise the
infinity dominates and finite values subtract exactly. -/
def jsub : JSNum → JSNum → JSNum
  | nan, _ => nan
  | _, nan => nan
  | posInf, posInf => nan
  | negInf, negInf => nan
  | posInf, _ => posInf
  | negInf, _ => negInf
  | num _, posInf => negInf
  | num _, negInf => posInf
  | num a, num b => num (a - b)

/-- JavaScript truthiness of a number: 0 and NaN are falsy, every other
number (including the infinities) is truthy. -/
def isFalsy : JSNum → Bool
  | nan => true
  | num q => q == 0
  | _ => false

/-- Plain rendering of a number, abstracting `toLocaleString`
(digit grouping is not reproduced; no verified property inspects a
message built with this). -/
def fmtNum : JSNum → String
  | nan => "NaN"
  | posInf => "Infinity"
  | negInf => "-Infinity"
  | num q => toString q

end JSNum

/-- The `businessType` discriminator of a `Scenario`. -/
inductive BusinessType where
  | traditional : BusinessType
  | tech : BusinessType
deriving DecidableEq, Repr

/-- The `Scenario` input record (src/types/index.ts). The bookkeeping
fields `name`, `organizationSize`, `notes`, `createdAt`, `updatedAt` are
never read by the validator or the calculator and are omitted from the
model; `revenuePercentage?: number` (possibly undefined) is an
`Option JSNum`. -/
structure Scenario where
  id : String
  businessType : BusinessType
  developerCount : JSNum
  annualCostPerDeveloper : JSNum
  ctsSwImprovementPercent : JSNum
  solutionCost : JSNum
  revenuePercentage : Option JSNum
deriving DecidableEq, Repr

/-- A JS error-mapping object: association list of (field key, message) in
insertion order. -/
abbrev ErrorsMap : Type := List (String × String)

/-- JS property set `obj[k] = v`: overwrite in place when the key is
present, append otherwise. -/
def objInsert (m : ErrorsMap) (k v : String) : ErrorsMap :=
  if (List.any m fun p => p.1 == k) then
    List.map (fun p => if p.1 == k then (k, v) else p) m
  else m ++ [(k, v)]

/-- JS property read `obj[k]`. -/
def objGet (m : ErrorsMap) (k : String) : Option String :=
  Option.map Prod.snd (List.find? (fun p => p.1 == k) m)

/-- `Object.assign(target, source)`: set each property of `source` on
`target`, in order. -/
def objAssign (m src : ErrorsMap) : ErrorsMap :=
  List.foldl (fun acc p => objInsert acc p.1 p.2) m src

/-- `Object.values(obj)` in insertion order. -/
def objValues (m : ErrorsMap) : List String := List.map Prod.snd m

/-- One min/max row of the validation-range table. -/
structure RangePair where
  min : ℚ
  max : ℚ
deriving DecidableEq, Repr

/-- The per-field min/max rows of `VALIDATION_RANGES`
(src/types/index.ts). -/
structure ValidationRangesTable where
  developerCount : RangePair
  annualCostPerDeveloper : RangePair
  ctsSwImprovementPercent : RangePair
  solutionCost : RangePair
  revenuePercentage : RangePair
deriving DecidableEq, Repr

/-- The static `VALIDATION_RANGES` constant (src/types/index.ts). -/
def VALIDATION_RANGES : ValidationRangesTable :=
  { developerCount := ⟨1, 50000⟩
    annualCostPerDeveloper := ⟨50000, 300000⟩
    ctsSwImprovementPercent := ⟨1/10, 50⟩
    solutionCost := ⟨1000, 100000000⟩
    revenuePercentage := ⟨0, 100⟩ }

/-! Error-mapping keys and the constant error messages of
src/services/InputValidator.ts. Messages that interpolate only the static
range constants are written out with the digit grouping of `toLocaleString`
applied to those constants, exactly as the source produces them. -/

def keyDeveloperCount : String := "developerCount"
def keyAnnualCostPerDeveloper : String := "annualCostPerDeveloper"
def keyCtsSwImprovementPercent : String := "ctsSwImprovementPercent"
def keySolutionCost : String := "solutionCost"
def keyRevenuePercentage : String := "revenuePercentage"
def keyGeneral : String := "general"

def msgDevCountRequired : String := "Developer count is required and must be a number"
def msgDevCountWhole : String := "Developer count must be a whole number (no decimals)"
def msgDevCountMin : String := "Developer count must be at least 1"
def msgDevCountMax : String :=
  "Developer count cannot exceed 50,000 (consider breaking into smaller teams)"
def msgCostRequired : String := "Annual cost per developer is required and must be a number"
def msgCostPositive : String := "Annual cost per developer must be greater than zero"
def msgCostMin : String :=
  "Annual cost per developer must be at least $50,000 (includes salary, benefits, and tooling)"
def msgCostMax : String :=
  "Annual cost per developer cannot exceed $300,000 (AWS example: $130K)"
def msgCtsRequired : String := "CTS-SW improvement percentage is required and must be a number"
def msgCtsPositive : String := "CTS-SW improvement percentage must be greater than zero"
def msgCtsMin : String := "CTS-SW improvement must be at least 0.1%"
def msgCtsMax : String := "CTS-SW improvement cannot exceed 50% (be realistic about achievable gains)"
def msgSolRequired : String := "Solution cost is required and must be a number"
def msgSolPositive : String := "Solution cost must be greater than zero"
def msgSolMin : String := "Solution cost must be at least $1,000"
def msgSolMax : String := "Solution cost cannot exceed $100,000,000"
def msgRevRequired : String := "Revenue percentage is required for tech companies"
def msgRevMin : String := "Revenue percentage must be at least 0%"
def msgRevMax : String := "Revenue percentage cannot exceed 100%"

/-- Cross-field message flagging a high solution cost (interpolates the
values of the scenario). -/
def msgSolHigh (solutionCost totalDeveloperCost : JSNum) : String :=
  "Solution cost ($" ++ solutionCost.fmtNum
    ++ ") seems high relative to total developer cost ($" ++ totalDeveloperCost.fmtNum
    ++ "). Consider if this investment is realistic."

/-- Cross-field message flagging a possibly unrealistic improvement for a
small investment. -/
def msgCtsUnreal (improvement solutionCost : JSNum) : String :=
  improvement.fmtNum ++ "% improvement may be unrealistic for a relatively small investment ($"
    ++ solutionCost.fmtNum ++ ")"

/-- Cross-field `general` message about a small team with a high cost. -/
def msgGeneralSmallTeam (developerCount : JSNum) : String :=
  "High solution cost for a small team. Consider if this investment makes sense for "
    ++ developerCount.fmtNum ++ " developers."

/-- `InputValidator.validateDeveloperCount`. The `null`/`undefined` guard
of the source collapses to the NaN guard: the typed model has no separate
null value in a `number`-typed field. -/
def validateDeveloperCount (count : JSNum) : Option String :=
  if count.isNaN then some msgDevCountRequired
  else if !count.isInteger then some msgDevCountWhole
  else if count.jlt (.num VALIDATION_RANGES.developerCount.min) then some msgDevCountMin
  else if count.jgt (.num VALIDATION_RANGES.developerCount.max) then some msgDevCountMax
  else none

/-- `InputValidator.validateAnnualCostPerDeveloper`. -/
def validateAnnualCostPerDeveloper (cost : JSNum) : Option String :=
  if cost.isNaN then some msgCostRequired
  else if cost.jle (.num 0) then some msgCostPositive
  else if cost.jlt (.num VALIDATION_RANGES.annualCostPerDeveloper.min) then some msgCostMin
  else if cost.jgt (.num VALIDATION_RANGES.annualCostPerDeveloper.max) then some msgCostMax
  else none

/-- `InputValidator.validateCtsSwImprovement`. -/
def validateCtsSwImprovement (improvement : JSNum) : Option String :=
  if improvement.isNaN then some msgCtsRequired
  else if improvement.jle (.num 0) then some msgCtsPositive
  else if improvement.jlt (.num VALIDATION_RANGES.ctsSwImprovementPercent.min) then some msgCtsMin
  else if improvement.jgt (.num VALIDATION_RANGES.ctsSwImprovementPercent.max) then some msgCtsMax
  else none

/-- `InputValidator.validateSolutionCost`. -/
def validateSolutionCost (cost : JSNum) : Option String :=
  if cost.isNaN then some msgSolRequired
  else if cost.jle (.num 0) then some msgSolPositive
  else if cost.jlt (.num VALIDATION_RANGES.solutionCost.min) then some msgSolMin
  else if cost.jgt (.num VALIDATION_RANGES.solutionCost.max) then some msgSolMax
  else none

/-- `InputValidator.validateRevenuePercentage`: the argument is
`number | undefined`; `undefined` and NaN both hit the required guard. -/
def validateRevenuePercentage (percentage : Option JSNum) : Option String :=
  match percentage with
  | none => some msgRevRequired
  | some p =>
    if p.isNaN then some msgRevRequired
    else if p.jlt (.num VALIDATION_RANGES.revenuePercentage.min) then some msgRevMin
    else if p.jgt (.num VALIDATION_RANGES.revenuePercentage.max) then some msgRevMax
    else none

/-- `InputValidator.validateCrossFieldConstraints`: the three heuristic
flags, built as a fresh error object. The source sets the three distinct
keys conditionally on a fresh object, which is the append of the entries
whose condition fired, in source order. -/
def validateCrossFieldConstraints (s : Scenario) : ErrorsMap :=
  let totalDeveloperCost := s.developerCount.jmul s.annualCostPerDeveloper
  let cr := s.solutionCost.jdiv totalDeveloperCost
  (if cr.jgt (.num (1/2)) then
    [(keySolutionCost, msgSolHigh s.solutionCost totalDeveloperCost)] else [])
  ++ (if cr.jlt (.num (5/1000)) && s.ctsSwImprovementPercent.jgt (.num 15) then
    [(keyCtsSwImprovementPercent, msgCtsUnreal s.ctsSwImprovementPercent s.solutionCost)] else [])
  ++ (if s.developerCount.jlt (.num 10) && s.solutionCost.jgt (.num 500000) then
    [(keyGeneral, msgGeneralSmallTeam s.developerCount)] else [])

/-- `InputValidator.validateScenario`: per-field checks populate the error
object in source order (`revenuePercentage` only for tech scenarios), then
the cross-field errors are merged in with `Object.assign`. -/
def validateScenario (s : Scenario) : ErrorsMap :=
  let errors : ErrorsMap := []
  let errors := match validateDeveloperCount s.developerCount with
    | some e => objInsert errors keyDeveloperCount e
    | none => errors
  let errors := match validateAnnualCostPerDeveloper s.annualCostPerDeveloper with
    | some e => objInsert errors keyAnnualCostPerDeveloper e
    | none => errors
  let errors := match validateCtsSwImprovement s.ctsSwImprovementPercent with
    | some e => objInsert errors keyCtsSwImprovementPercent e
    | none => errors
  let errors := match validateSolutionCost s.solutionCost with
    | some e => objInsert errors keySolutionCost e
    | none => errors
  let errors := if s.businessType = BusinessType.tech then
      match validateRevenuePercentage s.revenuePercentage with
      | some e => objInsert errors keyRevenuePercentage e
      | none => errors
    else errors
  objAssign errors (validateCrossFieldConstraints s)

/-- The placeholder `supportingMetrics` block of `CalculationResults`. -/
structure SupportingMetrics where
  deploymentsPerBuilder : JSNum
  interventionsReduction : JSNum
  incidentReduction : JSNum
deriving DecidableEq, Repr

/-- One `CalculationStep` record (src/types/index.ts). -/
structure CalculationStep where
  step : ℕ
  description : String
  formula : String
  calculation : String
  result : JSNum
  explanation : String
deriving DecidableEq, Repr

/-- The `CalculationResults` record (src/types/index.ts); the three
tech-only optional fields are `Option`s. -/
structure CalculationResults where
  scenarioId : String
  totalDeveloperCost : JSNum
  costAvoidance : JSNum
  roiMultiple : JSNum
  roiPercentage : JSNum
  grossMarginImprovement : Option JSNum
  profitImpact : Option JSNum
  profitBoostPercentage : Option JSNum
  supportingMetrics : SupportingMetrics
  calculationSteps : List CalculationStep
deriving DecidableEq, Repr

/-- Prefix of the aggregated validation-failure message thrown by both
calculator entry points. -/
def msgValidationFailedPre : String := "Validation failed: "

/-- The distinct error thrown by the explicit revenue-presence check of
`calculateTechCompany`. -/
def msgRevRequiredTech : String := "Revenue percentage is required for tech company calculations"

/-- JS truthiness of `scenario.revenuePercentage` (a `number | undefined`):
`undefined`, NaN and 0 are falsy. -/
def isFalsyOpt : Option JSNum → Bool
  | none => true
  | some x => x.isFalsy

/-- `BusinessModelCalculator.validateInputs`: delegates to the validator. -/
def validateInputs (s : Scenario) : ErrorsMap := validateScenario s

/-- `BusinessModelCalculator.calculateTraditionalBusiness`. A `throw` is
modelled as `Except.error`. -/
def calculateTraditionalBusiness (s : Scenario) : Except String CalculationResults :=
  let validationErrors := validateInputs s
  if 0 < validationErrors.length then
    .error (msgValidationFailedPre ++ String.intercalate ", " (objValues validationErrors))
  else
    let totalDeveloperCost := s.developerCount.jmul s.annualCostPerDeveloper
    let costAvoidance := totalDeveloperCost.jmul (s.ctsSwImprovementPercent.jdiv (.num 100))
    let roiMultiple := costAvoidance.jdiv s.solutionCost
    let roiPercentage := (roiMultiple.jsub (.num 1)).jmul (.num 100)
    let calculationSteps : List CalculationStep :=
      [ { step := 1
          description := "Calculate Total Developer Cost"
          formula := "Developer Count × Annual Cost per Developer"
          calculation := s.developerCount.fmtNum ++ " × $" ++ s.annualCostPerDeveloper.fmtNum
          result := totalDeveloperCost
          explanation := "Total annual cost of all developers including salaries, benefits, and tooling" },
        { step := 2
          description := "Calculate Cost Avoidance"
          formula := "Total Developer Cost × CTS-SW Improvement %"
          calculation := "$" ++ totalDeveloperCost.fmtNum ++ " × "
            ++ s.ctsSwImprovementPercent.fmtNum ++ "%"
          result := costAvoidance
          explanation := "Annual cost savings from improved developer productivity using CTS-SW framework" },
        { step := 3
          description := "Calculate ROI Multiple"
          formula := "Cost Avoidance ÷ Solution Cost"
          calculation := "$" ++ costAvoidance.fmtNum ++ " ÷ $" ++ s.solutionCost.fmtNum
          result := roiMultiple
          explanation := "Return on investment multiple - how many times the investment is returned annually" } ]
    .ok
      { scenarioId := s.id
        totalDeveloperCost := totalDeveloperCost
        costAvoidance := costAvoidance
        roiMultiple := roiMultiple
        roiPercentage := roiPercentage
        grossMarginImprovement := none
        profitImpact := none
        profitBoostPercentage := none
        supportingMetrics := ⟨.num 0, .num 0, .num 0⟩
        calculationSteps := calculationSteps }

/-- `BusinessModelCalculator.calculateTechCompany`. After the validation
guard and the truthiness presence check, the source reads
`scenario.revenuePercentage` as a number; `getD nan` models the JS coercion
of `undefined` in arithmetic (unreachable after the presence check). -/
def calculateTechCompany (s : Scenario) : Except String CalculationResults :=
  let validationErrors := validateInputs s
  if 0 < validationErrors.length then
    .error (msgValidationFailedPre ++ String.intercalate ", " (objValues validationErrors))
  else if isFalsyOpt s.revenuePercentage then
    .error msgRevRequiredTech
  else
    match calculateTraditionalBusiness s with
    | .error e => .error e
    | .ok basicResults =>
      let rp := s.revenuePercentage.getD JSNum.nan
      let totalDeveloperCost := s.developerCount.jmul s.annualCostPerDeveloper
      let costAvoidance := totalDeveloperCost.jmul (s.ctsSwImprovementPercent.jdiv (.num 100))
      let grossMarginImprovement := costAvoidance.jmul (rp.jdiv (.num 100))
      let profitImpact := grossMarginImprovement
      let baselineProfitMargin : JSNum := .num (10/100)
      let estimatedCurrentProfit := totalDeveloperCost.jmul baselineProfitMargin
      let profitBoostPercentage :=
        if estimatedCurrentProfit.jgt (.num 0) then
          (profitImpact.jdiv estimatedCurrentProfit).jmul (.num 100)
        else .num 0
      let techCalculationSteps : List CalculationStep :=
        basicResults.calculationSteps ++
        [ { step := 4
            description := "Calculate Gross Margin Improvement (Tech Company)"
            formula := "Cost Avoidance × Revenue from Software Development %"
            calculation := costAvoidance.fmtNum ++ " × " ++ rp.fmtNum ++ "%"
            result := grossMarginImprovement
            explanation := "For tech companies, developer productivity improvements directly impact gross margins on software revenue" },
          { step := 5
            description := "Calculate Profit Impact"
            formula := "Gross Margin Improvement (flows to profit)"
            calculation := grossMarginImprovement.fmtNum
            result := profitImpact
            explanation := "Gross margin improvements from developer productivity typically flow directly to profit" },
          { step := 6
            description := "Calculate Profit Boost Percentage"
            formula := "Profit Impact ÷ Estimated Current Profit × 100"
            calculation := profitImpact.fmtNum ++ " ÷ " ++ estimatedCurrentProfit.fmtNum ++ " × 100"
            result := profitBoostPercentage
            explanation := "Percentage increase in profit relative to baseline (assuming 10% current profit margin)" } ]
      .ok
        { basicResults with
          grossMarginImprovement := some grossMarginImprovement
          profitImpact := some profitImpact
          profitBoostPercentage := some profitBoostPercentage
          calculationSteps := techCalculationSteps }

/-! Concrete scenarios used as evaluation witnesses. -/

/-- The AWS bank reference scenario of the spec (traditional). -/
def bankScenario : Scenario :=
  { id := "bank"
    businessType := BusinessType.traditional
    developerCount := .num 1000
    annualCostPerDeveloper := .num 130000
    ctsSwImprovementPercent := .num 15
    solutionCost := .num 2000000
    revenuePercentage := none }

/-- The reference tech scenario of the spec. -/
def techScenario : Scenario :=
  { id := "tech"
    businessType := BusinessType.tech
    developerCount := .num 400
    annualCostPerDeveloper := .num 150000
    ctsSwImprovementPercent := .num 15
    solutionCost := .num 1000000
    revenuePercentage := some (.num 60) }

/-- The reference tech scenario with `revenuePercentage` set to 0. -/
def techZeroRevScenario : Scenario :=
  { techScenario with revenuePercentage := some (.num 0) }

/-- The reference tech scenario with `revenuePercentage` absent. -/
def techNoRevScenario : Scenario :=
  { techScenario with revenuePercentage := none }

/-- The cross-field example of the spec: 10 developers at 100,000 each with a
600,000 solution cost (ratio 0.6). -/
def smallTeamScenario : Scenario :=
  { id := "small"
    businessType := BusinessType.traditional
    developerCount := .num 10
    annualCostPerDeveloper := .num 100000
    ctsSwImprovementPercent := .num 15
    solutionCost := .num 600000
    revenuePercentage := none }

/-- A scenario whose solution cost breaks its own per-field range and also
fires the cost-ratio heuristic (the cross-field message overwrites the
per-field one). -/
def overwriteScenario : Scenario :=
  { id := "overwrite"
    businessType := BusinessType.traditional
    developerCount := .num 100
    annualCostPerDeveloper := .num 100000
    ctsSwImprovementPercent := .num 15
    solutionCost := .num 200000000
    revenuePercentage := none }

/-- A tech scenario with every field inside its per-field range and
`revenuePercentage = 0`, whose cost ratio (10) fires the cross-field
heuristic. -/
def ratioTechScenario : Scenario :=
  { id := "ratio"
    businessType := BusinessType.tech
    developerCount := .num 100
    annualCostPerDeveloper := .num 100000
    ctsSwImprovementPercent := .num 15
    solutionCost := .num 100000000
    revenuePercentage := some (.num 0) }

/-- A scenario rejected by the validator (`developerCount = 0`). -/
def invalidScenario : Scenario :=
  { id := "invalid"
    businessType := BusinessType.traditional
    developerCount := .num 0
    annualCostPerDeveloper := .num 130000
    ctsSwImprovementPercent := .num 15
    solutionCost := .num 2000000
    revenuePercentage := none }

/-! Lemmas about the JS-object model. -/

lemma objInsert_ne_nil (m : ErrorsMap) (k v : String) : objInsert m k v ≠ [] := by
  unfold objInsert
  split
  next hany =>
    cases m with
    | nil => simp at hany
    | cons p t => simp
  next => simp

lemma objAssign_cons (m : ErrorsMap) (p : String × String) (t : ErrorsMap) :
    objAssign m (p :: t) = objAssign (objInsert m p.1 p.2) t := rfl

lemma objAssign_ne_nil (m : ErrorsMap) (c : ErrorsMap) (h : m ≠ []) :
    objAssign m c ≠ [] := by
  induction c generalizing m with
  | nil => exact h
  | cons p t ih => exact ih (objInsert m p.1 p.2) (objInsert_ne_nil m p.1 p.2)

lemma objAssign_eq_nil_iff (m c : ErrorsMap) : objAssign m c = [] ↔ m = [] ∧ c = [] := by
  constructor
  · intro h
    cases c with
    | nil => exact ⟨h, rfl⟩
    | cons p t =>
      rw [objAssign_cons] at h
      exact absurd h (objAssign_ne_nil _ t (objInsert_ne_nil m p.1 p.2))
  · rintro ⟨rfl, rfl⟩
    rfl

lemma find?_setKey_eq (m : ErrorsMap) (k v : String)
    (hany : (List.any m fun p => p.1 == k) = true) :
    List.find? (fun p => p.1 == k) (List.map (fun p => if p.1 == k then (k, v) else p) m) =
      some (k, v) := by
  induction m with
  | nil => simp at hany
  | cons p t ih =>
    rw [List.map_cons]
    by_cases hp : p.1 = k
    · have hhead : (if p.1 == k then (k, v) else p) = (k, v) := by
        rw [if_pos]
        exact beq_iff_eq.mpr hp
      rw [hhead, List.find?_cons_of_pos]
      exact beq_self_eq_true k
    · have hhead : (if p.1 == k then (k, v) else p) = p := by
        rw [if_neg]
        exact fun hc => hp (beq_iff_eq.mp hc)
      have ht : (List.any t fun p => p.1 == k) = true := by
        simpa [hp] using hany
      rw [hhead, List.find?_cons_of_neg, ih ht]
      exact fun hcontra => hp (beq_iff_eq.mp hcontra)

lemma find?_setKey_ne (m : ErrorsMap) (k v k' : String) (hk : k ≠ k') :
    List.find? (fun p => p.1 == k') (List.map (fun p => if p.1 == k then (k, v) else p) m) =
      List.find? (fun p => p.1 == k') m := by
  induction m with
  | nil => simp
  | cons p t ih =>
    rw [List.map_cons]
    by_cases hp : p.1 = k
    · have hp' : ¬ p.1 = k' := by rw [hp]; exact hk
      have hhead : (if p.1 == k then (k, v) else p) = (k, v) := by
        rw [if_pos]
        exact beq_iff_eq.mpr hp
      rw [hhead, List.find?_cons_of_neg, List.find?_cons_of_neg, ih]
      · exact fun hcontra => hp' (beq_iff_eq.mp hcontra)
      · exact fun hcontra => hk (beq_iff_eq.mp hcontra)
    · have hhead : (if p.1 == k then (k, v) else p) = p := by
        rw [if_neg]
        exact fun hc => hp (beq_iff_eq.mp hc)
      rw [hhead]
      by_cases hp' : p.1 = k'
      · rw [List.find?_cons_of_pos, List.find?_cons_of_pos] <;>
          exact beq_iff_eq.mpr hp'
      · rw [List.find?_cons_of_neg, List.find?_cons_of_neg, ih] <;>
          exact fun hcontra => hp' (beq_iff_eq.mp hcontra)

lemma objGet_objInsert (m : ErrorsMap) (k v k' : String) :
    objGet (objInsert m k v) k' = if k = k' then some v else objGet m k' := by
  unfold objInsert objGet
  by_cases hany : (List.any m fun p => p.1 == k) = true
  · rw [if_pos hany]
    by_cases hk : k = k'
    · subst hk
      rw [find?_setKey_eq m k v hany]
      simp
    · rw [find?_setKey_ne m k v k' hk, if_neg hk]
  · rw [if_neg hany]
    have hnone : List.find? (fun p => p.1 == k) m = none := by
      rw [List.find?_eq_none]
      intro x hx hbeq
      exact hany (List.any_eq_true.mpr ⟨x, hx, hbeq⟩)
    rw [List.find?_append]
    by_cases hk : k = k'
    · subst hk
      simp [hnone]
    · have : ¬ (k = k') := hk
      simp [hnone, hk, Ne.symm hk]

/-! Characterizations of the per-field validators on accepted inputs. -/

lemma validateDeveloperCount_none (x : JSNum)
    (h : validateDeveloperCount x = none) :
    ∃ q : ℚ, x = JSNum.num q ∧ q.den = 1 ∧ 1 ≤ q ∧ q ≤ 50000 := by
  cases x with
  | nan => exact absurd h (by simp [validateDeveloperCount, JSNum.isNaN])
  | posInf => exact absurd h (by simp [validateDeveloperCount, JSNum.isNaN, JSNum.isInteger])
  | negInf => exact absurd h (by simp [validateDeveloperCount, JSNum.isNaN, JSNum.isInteger])
  | num q =>
    have hden : q.den = 1 := by
      by_contra hc
      simp [validateDeveloperCount, JSNum.isNaN, JSNum.isInteger, hc] at h
    have hlo : 1 ≤ q := by
      by_contra hc
      push_neg at hc
      simp [validateDeveloperCount, JSNum.isNaN, JSNum.isInteger, JSNum.jlt,
        VALIDATION_RANGES, hden, hc] at h
    have hhi : q ≤ 50000 := by
      by_contra hc
      push_neg at hc
      simp [validateDeveloperCount, JSNum.isNaN, JSNum.isInteger, JSNum.jlt, JSNum.jgt,
        VALIDATION_RANGES, hden, hc, not_lt.mpr hlo] at h
    exact ⟨q, rfl, hden, hlo, hhi⟩

lemma validateAnnualCostPerDeveloper_none (x : JSNum)
    (h : validateAnnualCostPerDeveloper x = none) :
    ∃ q : ℚ, x = JSNum.num q ∧ 50000 ≤ q ∧ q ≤ 300000 := by
  cases x with
  | nan => exact absurd h (by simp [validateAnnualCostPerDeveloper, JSNum.isNaN])
  | posInf =>
    exact absurd h (by simp [validateAnnualCostPerDeveloper, JSNum.isNaN, JSNum.jle,
      JSNum.jlt, JSNum.jgt, VALIDATION_RANGES])
  | negInf =>
    exact absurd h (by simp [validateAnnualCostPerDeveloper, JSNum.isNaN, JSNum.jle, JSNum.jlt])
  | num q =>
    have hpos : ¬ q ≤ 0 := by
      by_contra hc
      simp [validateAnnualCostPerDeveloper, JSNum.isNaN, JSNum.jle, JSNum.jlt,
        not_lt.mpr hc] at h
    push_neg at hpos
    have hlo : 50000 ≤ q := by
      by_contra hc
      push_neg at hc
      simp [validateAnnualCostPerDeveloper, JSNum.isNaN, JSNum.jle, JSNum.jlt,
        VALIDATION_RANGES, hpos, hc] at h
    have hhi : q ≤ 300000 := by
      by_contra hc
      push_neg at hc
      simp [validateAnnualCostPerDeveloper, JSNum.isNaN, JSNum.jle, JSNum.jlt, JSNum.jgt,
        VALIDATION_RANGES, hpos, hc, not_lt.mpr hlo] at h
    exact ⟨q, rfl, hlo, hhi⟩

lemma validateCtsSwImprovement_none (x : JSNum)
    (h : validateCtsSwImprovement x = none) :
    ∃ q : ℚ, x = JSNum.num q ∧ 1/10 ≤ q ∧ q ≤ 50 := by
  cases x with
  | nan => exact absurd h (by simp [validateCtsSwImprovement, JSNum.isNaN])
  | posInf =>
    exact absurd h (by simp [validateCtsSwImprovement, JSNum.isNaN, JSNum.jle,
      JSNum.jlt, JSNum.jgt, VALIDATION_RANGES])
  | negInf =>
    exact absurd h (by simp [validateCtsSwImprovement, JSNum.isNaN, JSNum.jle, JSNum.jlt])
  | num q =>
    have hpos : ¬ q ≤ 0 := by
      by_contra hc
      simp [validateCtsSwImprovement, JSNum.isNaN, JSNum.jle, JSNum.jlt,
        not_lt.mpr hc] at h
    push_neg at hpos
    have hlo : 1/10 ≤ q := by
      by_contra hc
      push_neg at hc
      rw [show (1 : ℚ)/10 = 10⁻¹ by norm_num] at hc
      simp [validateCtsSwImprovement, JSNum.isNaN, JSNum.jle, JSNum.jlt,
        VALIDATION_RANGES, hpos, hc] at h
    have hhi : q ≤ 50 := by
      by_contra hc
      push_neg at hc
      have hnl : ¬ q < (10 : ℚ)⁻¹ := by
        rw [show ((10 : ℚ))⁻¹ = 1/10 by norm_num]
        exact not_lt.mpr hlo
      simp [validateCtsSwImprovement, JSNum.isNaN, JSNum.jle, JSNum.jlt, JSNum.jgt,
        VALIDATION_RANGES, hpos, hc, hnl] at h
    exact ⟨q, rfl, hlo, hhi⟩

lemma validateSolutionCost_none (x : JSNum)
    (h : validateSolutionCost x = none) :
    ∃ q : ℚ, x = JSNum.num q ∧ 1000 ≤ q ∧ q ≤ 100000000 := by
  cases x with
  | nan => exact absurd h (by simp [validateSolutionCost, JSNum.isNaN])
  | posInf =>
    exact absurd h (by simp [validateSolutionCost, JSNum.isNaN, JSNum.jle,
      JSNum.jlt, JSNum.jgt, VALIDATION_RANGES])
  | negInf =>
    exact absurd h (by simp [validateSolutionCost, JSNum.isNaN, JSNum.jle, JSNum.jlt])
  | num q =>
    have hpos : ¬ q ≤ 0 := by
      by_contra hc
      simp [validateSolutionCost, JSNum.isNaN, JSNum.jle, JSNum.jlt,
        not_lt.mpr hc] at h
    push_neg at hpos
    have hlo : 1000 ≤ q := by
      by_contra hc
      push_neg at hc
      simp [validateSolutionCost, JSNum.isNaN, JSNum.jle, JSNum.jlt,
        VALIDATION_RANGES, hpos, hc] at h
    have hhi : q ≤ 100000000 := by
      by_contra hc
      push_neg at hc
      simp [validateSolutionCost, JSNum.isNaN, JSNum.jle, JSNum.jlt, JSNum.jgt,
        VALIDATION_RANGES, hpos, hc, not_lt.mpr hlo] at h
    exact ⟨q, rfl, hlo, hhi⟩

lemma validateRevenuePercentage_none (o : Option JSNum)
    (h : validateRevenuePercentage o = none) :
    ∃ q : ℚ, o = some (JSNum.num q) ∧ 0 ≤ q ∧ q ≤ 100 := by
  cases o with
  | none => exact absurd h (by simp [validateRevenuePercentage])
  | some x =>
    cases x with
    | nan => exact absurd h (by simp [validateRevenuePercentage, JSNum.isNaN])
    | posInf =>
      exact absurd h (by simp [validateRevenuePercentage, JSNum.isNaN, JSNum.jlt, JSNum.jgt,
        VALIDATION_RANGES])
    | negInf =>
      exact absurd h (by simp [validateRevenuePercentage, JSNum.isNaN, JSNum.jlt,
        VALIDATION_RANGES])
    | num q =>
      have hlo : 0 ≤ q := by
        by_contra hc
        push_neg at hc
        simp [validateRevenuePercentage, JSNum.isNaN, JSNum.jlt,
          VALIDATION_RANGES, hc] at h
      have hhi : q ≤ 100 := by
        by_contra hc
        push_neg at hc
        simp [validateRevenuePercentage, JSNum.isNaN, JSNum.jlt, JSNum.jgt,
          VALIDATION_RANGES, hc, not_lt.mpr hlo] at h
      exact ⟨q, rfl, hlo, hhi⟩

/-- A scenario accepted by `validateScenario` passes every per-field check
(the revenue check when it is a tech scenario) and fires no cross-field
heuristic. -/
lemma validateScenario_parts (s : Scenario) (h : validateScenario s = []) :
    validateDeveloperCount s.developerCount = none ∧
    validateAnnualCostPerDeveloper s.annualCostPerDeveloper = none ∧
    validateCtsSwImprovement s.ctsSwImprovementPercent = none ∧
    validateSolutionCost s.solutionCost = none ∧
    (s.businessType = BusinessType.tech →
      validateRevenuePercentage s.revenuePercentage = none) ∧
    validateCrossFieldConstraints s = [] := by
  have h' := h
  simp only [validateScenario] at h'
  rw [objAssign_eq_nil_iff] at h'
  obtain ⟨hchain, hcross⟩ := h'
  cases hd : validateDeveloperCount s.developerCount <;>
    cases hc2 : validateAnnualCostPerDeveloper s.annualCostPerDeveloper <;>
    cases hi : validateCtsSwImprovement s.ctsSwImprovementPercent <;>
    cases hs2 : validateSolutionCost s.solutionCost <;>
    cases hb : s.businessType <;>
    cases hr : validateRevenuePercentage s.revenuePercentage <;>
    simp [hd, hc2, hi, hs2, hb, hr, objInsert_ne_nil] at hchain <;>
    first
    | exact ⟨rfl, rfl, rfl, rfl, fun _ => rfl, hcross⟩
    | (refine ⟨rfl, rfl, rfl, rfl, ?_, hcross⟩
       intro ht
       exact nomatch ht)

/-- Converse direction: a scenario on which every check is silent is
accepted by `validateScenario`. -/
lemma validateScenario_nil_of (s : Scenario)
    (h1 : validateDeveloperCount s.developerCount = none)
    (h2 : validateAnnualCostPerDeveloper s.annualCostPerDeveloper = none)
    (h3 : validateCtsSwImprovement s.ctsSwImprovementPercent = none)
    (h4 : validateSolutionCost s.solutionCost = none)
    (h5 : s.businessType = BusinessType.tech →
      validateRevenuePercentage s.revenuePercentage = none)
    (h6 : validateCrossFieldConstraints s = []) :
    validateScenario s = [] := by
  cases hb : s.businessType with
  | traditional => simp [validateScenario, h1, h2, h3, h4, h6, hb, objAssign]
  | tech => simp [validateScenario, h1, h2, h3, h4, h6, hb, h5 hb, objAssign]

/-! Arithmetic reduction lemmas for finite values. -/

lemma jmul_num (a b : ℚ) : JSNum.jmul (.num a) (.num b) = .num (a * b) := rfl

lemma jsub_num (a b : ℚ) : JSNum.jsub (.num a) (.num b) = .num (a - b) := rfl

lemma jdiv_num (a b : ℚ) (h : b ≠ 0) :
    JSNum.jdiv (.num a) (.num b) = .num (a / b) := by
  simp [JSNum.jdiv, h]

/-- C1: for every Scenario with businessType = traditional accepted by
`validateScenario` with zero errors, `calculateTraditionalBusiness`
succeeds and returns totalDeveloperCost = developerCount ×
annualCostPerDeveloper, costAvoidance = totalDeveloperCost ×
(ctsSwImprovementPercent / 100), roiMultiple = costAvoidance /
solutionCost, roiPercentage = (roiMultiple − 1) × 100, and exactly 3
calculation steps numbered 1, 2, 3 in order whose result fields are
totalDeveloperCost, costAvoidance and roiMultiple respectively
(roiPercentage has no step of its own). -/
theorem C1_traditional_formulas (s : Scenario)
    (_hb : s.businessType = BusinessType.traditional)
    (hv : validateScenario s = []) :
    ∃ d c i sc : ℚ,
      s.developerCount = JSNum.num d ∧
      s.annualCostPerDeveloper = JSNum.num c ∧
      s.ctsSwImprovementPercent = JSNum.num i ∧
      s.solutionCost = JSNum.num sc ∧
      ∃ r : CalculationResults,
        calculateTraditionalBusiness s = Except.ok r ∧
        r.totalDeveloperCost = JSNum.num (d * c) ∧
        r.costAvoidance = JSNum.num (d * c * (i / 100)) ∧
        r.roiMultiple = JSNum.num (d * c * (i / 100) / sc) ∧
        r.roiPercentage = JSNum.num ((d * c * (i / 100) / sc - 1) * 100) ∧
        List.map CalculationStep.step r.calculationSteps = [1, 2, 3] ∧
        List.map CalculationStep.result r.calculationSteps =
          [r.totalDeveloperCost, r.costAvoidance, r.roiMultiple] := by
  obtain ⟨h1, h2, h3, h4, -, -⟩ := validateScenario_parts s hv
  obtain ⟨d, hd, hden, hd1, hd2⟩ := validateDeveloperCount_none _ h1
  obtain ⟨c, hc, hc1, hc2⟩ := validateAnnualCostPerDeveloper_none _ h2
  obtain ⟨i, hi, hi1, hi2⟩ := validateCtsSwImprovement_none _ h3
  obtain ⟨sc, hsc, hsc1, hsc2⟩ := validateSolutionCost_none _ h4
  have hsc0 : sc ≠ 0 := ne_of_gt (lt_of_lt_of_le (by norm_num) hsc1)
  have h100 : (100 : ℚ) ≠ 0 := by norm_num
  refine ⟨d, c, i, sc, hd, hc, hi, hsc, ?_⟩
  simp [calculateTraditionalBusiness, validateInputs, hv, hd, hc, hi, hsc,
    jmul_num, jsub_num, jdiv_num, hsc0, h100]

lemma traditional_ne_tech : (BusinessType.traditional = BusinessType.tech) = False := by
  simp

lemma tech_ne_traditional : (BusinessType.tech = BusinessType.traditional) = False := by
  simp

/-- C1 witness: the bank reference scenario is valid and instantiates the
theorem, with totalDeveloperCost 130,000,000, costAvoidance 19,500,000,
roiMultiple 9.75 and roiPercentage 875. -/
theorem C1_traditional_formulas_witness :
    bankScenario.businessType = BusinessType.traditional ∧
    validateScenario bankScenario = [] ∧
    ∃ r : CalculationResults,
      calculateTraditionalBusiness bankScenario = Except.ok r ∧
      r.totalDeveloperCost = JSNum.num 130000000 ∧
      r.costAvoidance = JSNum.num 19500000 ∧
      r.roiMultiple = JSNum.num (39/4) ∧
      r.roiPercentage = JSNum.num 875 ∧
      List.map CalculationStep.step r.calculationSteps = [1, 2, 3] := by
  have hv : validateScenario bankScenario = [] := by
    norm_num [validateScenario, validateDeveloperCount, validateAnnualCostPerDeveloper,
      validateCtsSwImprovement, validateSolutionCost, validateRevenuePercentage,
      validateCrossFieldConstraints, VALIDATION_RANGES, JSNum.isNaN, JSNum.isInteger,
      JSNum.jlt, JSNum.jgt, JSNum.jle, JSNum.jmul, JSNum.jdiv, bankScenario,
      objAssign, objInsert, traditional_ne_tech]
  refine ⟨rfl, hv, ?_⟩
  obtain ⟨d, c, i, sc, hd, hc, hi, hsc, r, hr, ht, hca, hrm, hrp, hsteps, -⟩ :=
    C1_traditional_formulas bankScenario rfl hv
  have hd' : (1000 : ℚ) = d := by
    have h := hd
    simp only [bankScenario] at h
    injection h
  have hc' : (130000 : ℚ) = c := by
    have h := hc
    simp only [bankScenario] at h
    injection h
  have hi' : (15 : ℚ) = i := by
    have h := hi
    simp only [bankScenario] at h
    injection h
  have hsc' : (2000000 : ℚ) = sc := by
    have h := hsc
    simp only [bankScenario] at h
    injection h
  subst hd' hc' hi' hsc'
  refine ⟨r, hr, ?_, ?_, ?_, ?_, hsteps⟩
  · rw [ht]; norm_num
  · rw [hca]; norm_num
  · rw [hrm]; norm_num
  · rw [hrp]; norm_num

/-- C2 counterexample: on the reference tech scenario with
`revenuePercentage` present but equal to 0, the validator reports zero
errors, yet `calculateTechCompany` does not return a result: the
truthiness-based presence check treats 0 as missing and throws. -/
theorem C2_counterexample :
    techZeroRevScenario.businessType = BusinessType.tech ∧
    techZeroRevScenario.revenuePercentage = some (JSNum.num 0) ∧
    validateScenario techZeroRevScenario = [] ∧
    calculateTechCompany techZeroRevScenario = Except.error msgRevRequiredTech := by
  have hv : validateScenario techZeroRevScenario = [] := by
    norm_num [validateScenario, validateDeveloperCount, validateAnnualCostPerDeveloper,
      validateCtsSwImprovement, validateSolutionCost, validateRevenuePercentage,
      validateCrossFieldConstraints, VALIDATION_RANGES, JSNum.isNaN, JSNum.isInteger,
      JSNum.jlt, JSNum.jgt, JSNum.jle, JSNum.jmul, JSNum.jdiv, techZeroRevScenario,
      techScenario, objAssign, objInsert]
  have hrp : techZeroRevScenario.revenuePercentage = some (JSNum.num 0) := rfl
  refine ⟨rfl, rfl, hv, ?_⟩
  simp [calculateTechCompany, validateInputs, hv, hrp, isFalsyOpt, JSNum.isFalsy]

/-- C2 (amended): for every tech Scenario accepted by the validator whose
`revenuePercentage` is present and nonzero (the truthiness check also
rejects the value 0, which the validator accepts), `calculateTechCompany`
returns the traditional result extended with grossMarginImprovement =
costAvoidance × (revenuePercentage / 100), profitImpact =
grossMarginImprovement, profitBoostPercentage = (profitImpact /
(totalDeveloperCost × 0.10)) × 100 when totalDeveloperCost × 0.10 > 0 and
0 otherwise, and exactly 6 ordered steps: the 3 traditional steps followed
by steps 4–6 reporting the three tech values. -/
theorem C2_tech_formulas (s : Scenario)
    (hb : s.businessType = BusinessType.tech)
    (hv : validateScenario s = [])
    (hnz : s.revenuePercentage ≠ some (JSNum.num 0)) :
    ∃ d c i sc v : ℚ,
      s.developerCount = JSNum.num d ∧
      s.annualCostPerDeveloper = JSNum.num c ∧
      s.ctsSwImprovementPercent = JSNum.num i ∧
      s.solutionCost = JSNum.num sc ∧
      s.revenuePercentage = some (JSNum.num v) ∧
      ∃ r rt : CalculationResults,
        calculateTechCompany s = Except.ok r ∧
        calculateTraditionalBusiness s = Except.ok rt ∧
        r.scenarioId = rt.scenarioId ∧
        r.totalDeveloperCost = rt.totalDeveloperCost ∧
        r.costAvoidance = rt.costAvoidance ∧
        r.roiMultiple = rt.roiMultiple ∧
        r.roiPercentage = rt.roiPercentage ∧
        r.grossMarginImprovement = some (JSNum.num (d * c * (i / 100) * (v / 100))) ∧
        r.profitImpact = some (JSNum.num (d * c * (i / 100) * (v / 100))) ∧
        r.profitBoostPercentage = some (JSNum.num
          (if 0 < d * c * (10 / 100)
            then d * c * (i / 100) * (v / 100) / (d * c * (10 / 100)) * 100
            else 0)) ∧
        List.map CalculationStep.step r.calculationSteps = [1, 2, 3, 4, 5, 6] ∧
        List.take 3 r.calculationSteps = rt.calculationSteps ∧
        List.map CalculationStep.result r.calculationSteps =
          [rt.totalDeveloperCost, rt.costAvoidance, rt.roiMultiple,
            JSNum.num (d * c * (i / 100) * (v / 100)),
            JSNum.num (d * c * (i / 100) * (v / 100)),
            JSNum.num (if 0 < d * c * (10 / 100)
              then d * c * (i / 100) * (v / 100) / (d * c * (10 / 100)) * 100
              else 0)] := by
  obtain ⟨h1, h2, h3, h4, h5, -⟩ := validateScenario_parts s hv
  obtain ⟨d, hd, hden, hd1, hd2⟩ := validateDeveloperCount_none _ h1
  obtain ⟨c, hc, hc1, hc2⟩ := validateAnnualCostPerDeveloper_none _ h2
  obtain ⟨i, hi, hi1, hi2⟩ := validateCtsSwImprovement_none _ h3
  obtain ⟨sc, hsc, hsc1, hsc2⟩ := validateSolutionCost_none _ h4
  obtain ⟨v, hrp, hv1, hv2⟩ := validateRevenuePercentage_none _ (h5 hb)
  have hv0 : v ≠ 0 := by
    intro hcontra
    exact hnz (by rw [hrp, hcontra])
  have hsc0 : sc ≠ 0 := ne_of_gt (lt_of_lt_of_le (by norm_num) hsc1)
  have h100 : (100 : ℚ) ≠ 0 := by norm_num
  have hdpos : (0 : ℚ) < d := lt_of_lt_of_le (by norm_num) hd1
  have hcpos : (0 : ℚ) < c := lt_of_lt_of_le (by norm_num) hc1
  have hprof : (0 : ℚ) < d * c * (10 / 100) := by positivity
  have hprof0 : d * c * (10 / 100) ≠ 0 := ne_of_gt hprof
  refine ⟨d, c, i, sc, v, hd, hc, hi, hsc, hrp, ?_⟩
  simp [calculateTechCompany, calculateTraditionalBusiness, validateInputs, hv,
    isFalsyOpt, JSNum.isFalsy, hd, hc, hi, hsc, hrp, hv0,
    jmul_num, jsub_num, jdiv_num, hsc0, h100, hprof, hprof0,
    JSNum.jgt, JSNum.jlt]

/-- C2 witness: the reference tech scenario instantiates the amended
theorem with grossMarginImprovement 5,400,000, profitImpact 5,400,000,
profitBoostPercentage 90 and 6 ordered steps. -/
theorem C2_tech_formulas_witness :
    techScenario.businessType = BusinessType.tech ∧
    validateScenario techScenario = [] ∧
    techScenario.revenuePercentage ≠ some (JSNum.num 0) ∧
    ∃ r : CalculationResults,
      calculateTechCompany techScenario = Except.ok r ∧
      r.grossMarginImprovement = some (JSNum.num 5400000) ∧
      r.profitImpact = some (JSNum.num 5400000) ∧
      r.profitBoostPercentage = some (JSNum.num 90) ∧
      List.map CalculationStep.step r.calculationSteps = [1, 2, 3, 4, 5, 6] := by
  have hv : validateScenario techScenario = [] := by
    norm_num [validateScenario, validateDeveloperCount, validateAnnualCostPerDeveloper,
      validateCtsSwImprovement, validateSolutionCost, validateRevenuePercentage,
      validateCrossFieldConstraints, VALIDATION_RANGES, JSNum.isNaN, JSNum.isInteger,
      JSNum.jlt, JSNum.jgt, JSNum.jle, JSNum.jmul, JSNum.jdiv, techScenario,
      objAssign, objInsert]
  have hnz : techScenario.revenuePercentage ≠ some (JSNum.num 0) := by
    simp [techScenario]
  refine ⟨rfl, hv, hnz, ?_⟩
  obtain ⟨d, c, i, sc, v, hd, hc, hi, hsc, hrp, r, rt, hr, -, -, -, -, -, -,
    hgm, hpi, hpb, hsteps, -, -⟩ := C2_tech_formulas techScenario rfl hv hnz
  have hd' : (400 : ℚ) = d := by
    have h := hd
    simp only [techScenario] at h
    injection h
  have hc' : (150000 : ℚ) = c := by
    have h := hc
    simp only [techScenario] at h
    injection h
  have hi' : (15 : ℚ) = i := by
    have h := hi
    simp only [techScenario] at h
    injection h
  have hv' : (60 : ℚ) = v := by
    have h := hrp
    simp only [techScenario] at h
    injection h with h'
    injection h'
  subst hd' hc' hi' hv'
  refine ⟨r, hr, ?_, ?_, ?_, hsteps⟩
  · rw [hgm]; norm_num
  · rw [hpi]; norm_num
  · rw [hpb]; norm_num

/-- C3: whenever `validateScenario` reports a non-empty error mapping,
both entry points fail immediately with a single error message built as
the join (with a comma delimiter) of all current validation messages, and
no result record is produced; when the mapping is empty, the traditional
entry point never fails, and the tech entry point can only fail with the
distinct revenue-presence message. -/
theorem C3_validation_gate (s : Scenario) :
    (validateScenario s ≠ [] →
      calculateTraditionalBusiness s = Except.error
        (msgValidationFailedPre ++ String.intercalate ", " (objValues (validateScenario s))) ∧
      calculateTechCompany s = Except.error
        (msgValidationFailedPre ++ String.intercalate ", " (objValues (validateScenario s)))) ∧
    (validateScenario s = [] →
      (∀ m, calculateTraditionalBusiness s ≠ Except.error m) ∧
      (∀ m, calculateTechCompany s = Except.error m → m = msgRevRequiredTech)) := by
  constructor
  · intro hne
    have hlen : 0 < (validateScenario s).length := List.length_pos.mpr hne
    constructor
    · simp [calculateTraditionalBusiness, validateInputs, hlen]
    · simp [calculateTechCompany, validateInputs, hlen]
  · intro hv
    constructor
    · intro m
      simp [calculateTraditionalBusiness, validateInputs, hv]
    · intro m hm
      by_cases hf : isFalsyOpt s.revenuePercentage
      · simp [calculateTechCompany, validateInputs, hv, hf] at hm
        exact hm.symm
      · simp [calculateTechCompany, calculateTraditionalBusiness, validateInputs,
          hv, hf] at hm

/-- C3 witness: `developerCount = 0` is rejected and the traditional
entry point fails with the aggregated message, while the valid bank
scenario never hits the validation error. -/
theorem C3_validation_gate_witness :
    validateScenario invalidScenario ≠ [] ∧
    calculateTraditionalBusiness invalidScenario = Except.error
      (msgValidationFailedPre ++ String.intercalate ", "
        (objValues (validateScenario invalidScenario))) ∧
    validateScenario bankScenario = [] ∧
    ∀ m, calculateTraditionalBusiness bankScenario ≠ Except.error m := by
  have hne : validateScenario invalidScenario ≠ [] := by
    intro h
    obtain ⟨h1, -, -, -, -, -⟩ := validateScenario_parts invalidScenario h
    rw [show invalidScenario.developerCount = JSNum.num 0 from rfl] at h1
    norm_num [validateDeveloperCount, JSNum.isNaN, JSNum.isInteger, JSNum.jlt,
      VALIDATION_RANGES] at h1
    exact Option.noConfusion h1
  have hv : validateScenario bankScenario = [] := by
    norm_num [validateScenario, validateDeveloperCount, validateAnnualCostPerDeveloper,
      validateCtsSwImprovement, validateSolutionCost, validateRevenuePercentage,
      validateCrossFieldConstraints, VALIDATION_RANGES, JSNum.isNaN, JSNum.isInteger,
      JSNum.jlt, JSNum.jgt, JSNum.jle, JSNum.jmul, JSNum.jdiv, bankScenario,
      objAssign, objInsert, traditional_ne_tech]
  exact ⟨hne, ((C3_validation_gate invalidScenario).1 hne).1, hv,
    ((C3_validation_gate bankScenario).2 hv).1⟩

/-- Helper: the aggregated "Validation failed: ..." message is never the
distinct revenue-presence message, whatever the joined tail is (the two
strings differ in their first character). -/
lemma validationFailed_ne_revRequiredTech (rest : String) :
    msgValidationFailedPre ++ rest ≠ msgRevRequiredTech := by
  intro h
  have hdata : (msgValidationFailedPre ++ rest).data = msgRevRequiredTech.data := by rw [h]
  rw [String.data_append] at hdata
  have hhead : (msgValidationFailedPre.data ++ rest.data).head? =
      msgRevRequiredTech.data.head? := by rw [hdata]
  rw [List.head?_append] at hhead
  have h1 : msgValidationFailedPre.data.head? = some (Char.ofNat 86) := rfl
  have h2 : msgRevRequiredTech.data.head? = some (Char.ofNat 82) := rfl
  rw [h1, h2] at hhead
  simp at hhead

/-- C4 counterexample: on the reference tech scenario with
`revenuePercentage` absent and every other field within range,
`calculateTechCompany` fails with the aggregated validation message (the
required-field rule of the validator fires first), not with the distinct
presence-check message the claim names. -/
theorem C4_counterexample :
    techNoRevScenario.businessType = BusinessType.tech ∧
    techNoRevScenario.revenuePercentage = none ∧
    validateDeveloperCount techNoRevScenario.developerCount = none ∧
    validateAnnualCostPerDeveloper techNoRevScenario.annualCostPerDeveloper = none ∧
    validateCtsSwImprovement techNoRevScenario.ctsSwImprovementPercent = none ∧
    validateSolutionCost techNoRevScenario.solutionCost = none ∧
    calculateTechCompany techNoRevScenario =
      Except.error (msgValidationFailedPre ++ msgRevRequired) ∧
    msgValidationFailedPre ++ msgRevRequired ≠ msgRevRequiredTech := by
  have hval : validateScenario techNoRevScenario = [(keyRevenuePercentage, msgRevRequired)] := by
    norm_num [validateScenario, validateDeveloperCount, validateAnnualCostPerDeveloper,
      validateCtsSwImprovement, validateSolutionCost, validateRevenuePercentage,
      validateCrossFieldConstraints, VALIDATION_RANGES, JSNum.isNaN, JSNum.isInteger,
      JSNum.jlt, JSNum.jgt, JSNum.jle, JSNum.jmul, JSNum.jdiv, techNoRevScenario,
      techScenario, objAssign, objInsert]
  have hsing : String.intercalate ", " [msgRevRequired] = msgRevRequired := rfl
  refine ⟨rfl, rfl, ?_, ?_, ?_, ?_, ?_, by decide⟩
  · norm_num [validateDeveloperCount, JSNum.isNaN, JSNum.isInteger, JSNum.jlt, JSNum.jgt,
      VALIDATION_RANGES, techNoRevScenario, techScenario]
  · norm_num [validateAnnualCostPerDeveloper, JSNum.isNaN, JSNum.jle, JSNum.jlt, JSNum.jgt,
      VALIDATION_RANGES, techNoRevScenario, techScenario]
  · norm_num [validateCtsSwImprovement, JSNum.isNaN, JSNum.jle, JSNum.jlt, JSNum.jgt,
      VALIDATION_RANGES, techNoRevScenario, techScenario]
  · norm_num [validateSolutionCost, JSNum.isNaN, JSNum.jle, JSNum.jlt, JSNum.jgt,
      VALIDATION_RANGES, techNoRevScenario, techScenario]
  · simp [calculateTechCompany, validateInputs, hval, objValues, hsing]

/-- C4 (amended): for every tech Scenario whose `revenuePercentage` is
missing, `calculateTechCompany` fails — but with the aggregated
"Validation failed: ..." message, because the required-field rule of the
validator runs before the explicit presence check; the distinct
presence-check message is unreachable when the field is missing. -/
theorem C4_missing_revenue (s : Scenario)
    (hb : s.businessType = BusinessType.tech)
    (hrp : s.revenuePercentage = none) :
    calculateTechCompany s = Except.error
      (msgValidationFailedPre ++ String.intercalate ", "
        (objValues (validateScenario s))) ∧
    ∀ m, calculateTechCompany s = Except.error m → m ≠ msgRevRequiredTech := by
  have hne : validateScenario s ≠ [] := by
    intro h
    obtain ⟨-, -, -, -, h5, -⟩ := validateScenario_parts s h
    have hrev := h5 hb
    rw [hrp] at hrev
    simp [validateRevenuePercentage] at hrev
  have hlen : 0 < (validateScenario s).length := List.length_pos.mpr hne
  constructor
  · simp [calculateTechCompany, validateInputs, hlen]
  · intro m hm
    simp [calculateTechCompany, validateInputs, hlen] at hm
    rw [← hm]
    exact validationFailed_ne_revRequiredTech _

/-- C4 witness: the missing-revenue tech scenario instantiates the
amended theorem. -/
theorem C4_missing_revenue_witness :
    techNoRevScenario.businessType = BusinessType.tech ∧
    techNoRevScenario.revenuePercentage = none ∧
    calculateTechCompany techNoRevScenario = Except.error
      (msgValidationFailedPre ++ String.intercalate ", "
        (objValues (validateScenario techNoRevScenario))) :=
  ⟨rfl, rfl, (C4_missing_revenue techNoRevScenario rfl rfl).1⟩

/-- Resolution of a JS object read through `Object.assign`: the last
binding set for the key wins, falling back to the target. -/
lemma objGet_objAssign (m c : ErrorsMap) (k : String) :
    objGet (objAssign m c) k = (objGet (List.reverse c) k).or (objGet m k) := by
  induction c generalizing m with
  | nil => simp [objAssign, objGet]
  | cons p t ih =>
    rw [objAssign_cons, ih, objGet_objInsert, List.reverse_cons]
    unfold objGet
    rw [List.find?_append]
    by_cases hk : p.1 = k
    · cases hX : List.find? (fun p => p.1 == k) (List.reverse t) <;>
        simp [hk, hX]
    · cases hX : List.find? (fun p => p.1 == k) (List.reverse t) <;>
        simp [hk, hX]

/-- C5: the cross-field heuristics are evaluated after the per-field
checks and merged into the same mapping, overwriting any per-field
message for the same key: whenever costRatio > 0.5 the final mapping
carries the cross-field message under `solutionCost`; whenever
costRatio < 0.005 and ctsSwImprovementPercent > 15 it carries the
cross-field message under `ctsSwImprovementPercent`; and whenever
developerCount < 10 and solutionCost > 500,000 the `general` key is set. -/
theorem C5_cross_field (s : Scenario) :
    ((JSNum.jdiv s.solutionCost
        (JSNum.jmul s.developerCount s.annualCostPerDeveloper)).jgt
          (JSNum.num (1/2)) = true →
      objGet (validateScenario s) keySolutionCost =
        some (msgSolHigh s.solutionCost
          (JSNum.jmul s.developerCount s.annualCostPerDeveloper))) ∧
    (((JSNum.jdiv s.solutionCost
        (JSNum.jmul s.developerCount s.annualCostPerDeveloper)).jlt
          (JSNum.num (5/1000)) && s.ctsSwImprovementPercent.jgt (JSNum.num 15)) = true →
      objGet (validateScenario s) keyCtsSwImprovementPercent =
        some (msgCtsUnreal s.ctsSwImprovementPercent s.solutionCost)) ∧
    ((s.developerCount.jlt (JSNum.num 10) && s.solutionCost.jgt (JSNum.num 500000)) = true →
      objGet (validateScenario s) keyGeneral =
        some (msgGeneralSmallTeam s.developerCount)) := by
  refine ⟨?_, ?_, ?_⟩
  · intro h1
    simp only [validateScenario]
    rw [objGet_objAssign]
    simp only [validateCrossFieldConstraints]
    rw [if_pos h1]
    by_cases h2 : ((JSNum.jdiv s.solutionCost
        (JSNum.jmul s.developerCount s.annualCostPerDeveloper)).jlt
          (JSNum.num (5/1000)) && s.ctsSwImprovementPercent.jgt (JSNum.num 15)) = true <;>
      [rw [if_pos h2]; rw [if_neg h2]] <;>
      by_cases h3 : (s.developerCount.jlt (JSNum.num 10) &&
          s.solutionCost.jgt (JSNum.num 500000)) = true <;>
      [rw [if_pos h3]; rw [if_neg h3]; rw [if_pos h3]; rw [if_neg h3]] <;>
      simp [objGet, keyDeveloperCount, keyAnnualCostPerDeveloper,
        keyCtsSwImprovementPercent, keySolutionCost, keyRevenuePercentage, keyGeneral]
  · intro h2
    simp only [validateScenario]
    rw [objGet_objAssign]
    simp only [validateCrossFieldConstraints]
    rw [if_pos h2]
    by_cases h1 : (JSNum.jdiv s.solutionCost
        (JSNum.jmul s.developerCount s.annualCostPerDeveloper)).jgt
          (JSNum.num (1/2)) = true <;>
      [rw [if_pos h1]; rw [if_neg h1]] <;>
      by_cases h3 : (s.developerCount.jlt (JSNum.num 10) &&
          s.solutionCost.jgt (JSNum.num 500000)) = true <;>
      [rw [if_pos h3]; rw [if_neg h3]; rw [if_pos h3]; rw [if_neg h3]] <;>
      simp [objGet, keyDeveloperCount, keyAnnualCostPerDeveloper,
        keyCtsSwImprovementPercent, keySolutionCost, keyRevenuePercentage, keyGeneral]
  · intro h3
    simp only [validateScenario]
    rw [objGet_objAssign]
    simp only [validateCrossFieldConstraints]
    rw [if_pos h3]
    by_cases h1 : (JSNum.jdiv s.solutionCost
        (JSNum.jmul s.developerCount s.annualCostPerDeveloper)).jgt
          (JSNum.num (1/2)) = true <;>
      [rw [if_pos h1]; rw [if_neg h1]] <;>
      by_cases h2 : ((JSNum.jdiv s.solutionCost
          (JSNum.jmul s.developerCount s.annualCostPerDeveloper)).jlt
            (JSNum.num (5/1000)) && s.ctsSwImprovementPercent.jgt (JSNum.num 15)) = true <;>
      [rw [if_pos h2]; rw [if_neg h2]; rw [if_pos h2]; rw [if_neg h2]] <;>
      simp [objGet, keyDeveloperCount, keyAnnualCostPerDeveloper,
        keyCtsSwImprovementPercent, keySolutionCost, keyRevenuePercentage, keyGeneral]

/-- C5 witness: for developerCount=10, annualCostPerDeveloper=100,000,
solutionCost=600,000 (ratio 0.6) the `solutionCost` key carries the
cross-field error although the value passes its own range check; and on a
scenario whose solutionCost also breaks its per-field range, the
cross-field message overwrites the per-field one. -/
theorem C5_cross_field_witness :
    validateSolutionCost smallTeamScenario.solutionCost = none ∧
    objGet (validateScenario smallTeamScenario) keySolutionCost =
      some (msgSolHigh smallTeamScenario.solutionCost
        (JSNum.jmul smallTeamScenario.developerCount
          smallTeamScenario.annualCostPerDeveloper)) ∧
    validateSolutionCost overwriteScenario.solutionCost = some msgSolMax ∧
    objGet (validateScenario overwriteScenario) keySolutionCost =
      some (msgSolHigh overwriteScenario.solutionCost
        (JSNum.jmul overwriteScenario.developerCount
          overwriteScenario.annualCostPerDeveloper)) := by
  refine ⟨?_, ?_, ?_, ?_⟩
  · norm_num [validateSolutionCost, JSNum.isNaN, JSNum.jle, JSNum.jlt, JSNum.jgt,
      VALIDATION_RANGES, smallTeamScenario]
  · exact (C5_cross_field smallTeamScenario).1 (by
      norm_num [JSNum.jgt, JSNum.jlt, JSNum.jdiv, JSNum.jmul, smallTeamScenario])
  · norm_num [validateSolutionCost, JSNum.isNaN, JSNum.jle, JSNum.jlt, JSNum.jgt,
      VALIDATION_RANGES, overwriteScenario]
  · exact (C5_cross_field overwriteScenario).1 (by
      norm_num [JSNum.jgt, JSNum.jlt, JSNum.jdiv, JSNum.jmul, overwriteScenario])

/-- C6: for every ranged field, the per-field validator accepts a value
exactly equal to the configured min or max, and rejects every finite
number strictly below the min or strictly above the max
(the `revenuePercentage` validator is the one `validateScenario` applies
when businessType = tech). -/
theorem C6_boundaries :
    (validateDeveloperCount (.num VALIDATION_RANGES.developerCount.min) = none ∧
      validateDeveloperCount (.num VALIDATION_RANGES.developerCount.max) = none ∧
      (∀ q : ℚ, q < VALIDATION_RANGES.developerCount.min →
        validateDeveloperCount (.num q) ≠ none) ∧
      (∀ q : ℚ, VALIDATION_RANGES.developerCount.max < q →
        validateDeveloperCount (.num q) ≠ none)) ∧
    (validateAnnualCostPerDeveloper (.num VALIDATION_RANGES.annualCostPerDeveloper.min) = none ∧
      validateAnnualCostPerDeveloper (.num VALIDATION_RANGES.annualCostPerDeveloper.max) = none ∧
      (∀ q : ℚ, q < VALIDATION_RANGES.annualCostPerDeveloper.min →
        validateAnnualCostPerDeveloper (.num q) ≠ none) ∧
      (∀ q : ℚ, VALIDATION_RANGES.annualCostPerDeveloper.max < q →
        validateAnnualCostPerDeveloper (.num q) ≠ none)) ∧
    (validateCtsSwImprovement (.num VALIDATION_RANGES.ctsSwImprovementPercent.min) = none ∧
      validateCtsSwImprovement (.num VALIDATION_RANGES.ctsSwImprovementPercent.max) = none ∧
      (∀ q : ℚ, q < VALIDATION_RANGES.ctsSwImprovementPercent.min →
        validateCtsSwImprovement (.num q) ≠ none) ∧
      (∀ q : ℚ, VALIDATION_RANGES.ctsSwImprovementPercent.max < q →
        validateCtsSwImprovement (.num q) ≠ none)) ∧
    (validateSolutionCost (.num VALIDATION_RANGES.solutionCost.min) = none ∧
      validateSolutionCost (.num VALIDATION_RANGES.solutionCost.max) = none ∧
      (∀ q : ℚ, q < VALIDATION_RANGES.solutionCost.min →
        validateSolutionCost (.num q) ≠ none) ∧
      (∀ q : ℚ, VALIDATION_RANGES.solutionCost.max < q →
        validateSolutionCost (.num q) ≠ none)) ∧
    (validateRevenuePercentage (some (.num VALIDATION_RANGES.revenuePercentage.min)) = none ∧
      validateRevenuePercentage (some (.num VALIDATION_RANGES.revenuePercentage.max)) = none ∧
      (∀ q : ℚ, q < VALIDATION_RANGES.revenuePercentage.min →
        validateRevenuePercentage (some (.num q)) ≠ none) ∧
      (∀ q : ℚ, VALIDATION_RANGES.revenuePercentage.max < q →
        validateRevenuePercentage (some (.num q)) ≠ none)) := by
  refine ⟨⟨?_, ?_, ?_, ?_⟩, ⟨?_, ?_, ?_, ?_⟩, ⟨?_, ?_, ?_, ?_⟩, ⟨?_, ?_, ?_, ?_⟩,
    ⟨?_, ?_, ?_, ?_⟩⟩
  · norm_num [validateDeveloperCount, JSNum.isNaN, JSNum.isInteger, JSNum.jlt, JSNum.jgt,
      VALIDATION_RANGES]
  · norm_num [validateDeveloperCount, JSNum.isNaN, JSNum.isInteger, JSNum.jlt, JSNum.jgt,
      VALIDATION_RANGES]
  · intro q hq h
    obtain ⟨q', heq, -, h1, -⟩ := validateDeveloperCount_none _ h
    injection heq with heq'
    rw [← heq'] at h1
    simp [VALIDATION_RANGES] at hq
    linarith
  · intro q hq h
    obtain ⟨q', heq, -, -, h2⟩ := validateDeveloperCount_none _ h
    injection heq with heq'
    rw [← heq'] at h2
    simp [VALIDATION_RANGES] at hq
    linarith
  · norm_num [validateAnnualCostPerDeveloper, JSNum.isNaN, JSNum.jle, JSNum.jlt, JSNum.jgt,
      VALIDATION_RANGES]
  · norm_num [validateAnnualCostPerDeveloper, JSNum.isNaN, JSNum.jle, JSNum.jlt, JSNum.jgt,
      VALIDATION_RANGES]
  · intro q hq h
    obtain ⟨q', heq, h1, -⟩ := validateAnnualCostPerDeveloper_none _ h
    injection heq with heq'
    rw [← heq'] at h1
    simp [VALIDATION_RANGES] at hq
    linarith
  · intro q hq h
    obtain ⟨q', heq, -, h2⟩ := validateAnnualCostPerDeveloper_none _ h
    injection heq with heq'
    rw [← heq'] at h2
    simp [VALIDATION_RANGES] at hq
    linarith
  · norm_num [validateCtsSwImprovement, JSNum.isNaN, JSNum.jle, JSNum.jlt, JSNum.jgt,
      VALIDATION_RANGES]
  · norm_num [validateCtsSwImprovement, JSNum.isNaN, JSNum.jle, JSNum.jlt, JSNum.jgt,
      VALIDATION_RANGES]
  · intro q hq h
    obtain ⟨q', heq, h1, -⟩ := validateCtsSwImprovement_none _ h
    injection heq with heq'
    rw [← heq'] at h1
    simp [VALIDATION_RANGES] at hq
    rw [show ((10 : ℚ))⁻¹ = 1/10 by norm_num] at hq
    linarith
  · intro q hq h
    obtain ⟨q', heq, -, h2⟩ := validateCtsSwImprovement_none _ h
    injection heq with heq'
    rw [← heq'] at h2
    simp [VALIDATION_RANGES] at hq
    linarith
  · norm_num [validateSolutionCost, JSNum.isNaN, JSNum.jle, JSNum.jlt, JSNum.jgt,
      VALIDATION_RANGES]
  · norm_num [validateSolutionCost, JSNum.isNaN, JSNum.jle, JSNum.jlt, JSNum.jgt,
      VALIDATION_RANGES]
  · intro q hq h
    obtain ⟨q', heq, h1, -⟩ := validateSolutionCost_none _ h
    injection heq with heq'
    rw [← heq'] at h1
    simp [VALIDATION_RANGES] at hq
    linarith
  · intro q hq h
    obtain ⟨q', heq, -, h2⟩ := validateSolutionCost_none _ h
    injection heq with heq'
    rw [← heq'] at h2
    simp [VALIDATION_RANGES] at hq
    linarith
  · norm_num [validateRevenuePercentage, JSNum.isNaN, JSNum.jlt, JSNum.jgt,
      VALIDATION_RANGES]
  · norm_num [validateRevenuePercentage, JSNum.isNaN, JSNum.jlt, JSNum.jgt,
      VALIDATION_RANGES]
  · intro q hq h
    obtain ⟨q', heq, h1, -⟩ := validateRevenuePercentage_none _ h
    injection heq with heq'
    injection heq' with heq''
    rw [← heq''] at h1
    simp [VALIDATION_RANGES] at hq
    linarith
  · intro q hq h
    obtain ⟨q', heq, -, h2⟩ := validateRevenuePercentage_none _ h
    injection heq with heq'
    injection heq' with heq''
    rw [← heq''] at h2
    simp [VALIDATION_RANGES] at hq
    linarith

/-- C6 witness: concrete out-of-range probes on three of the fields,
discharged through the boundary theorem. -/
theorem C6_boundaries_witness :
    ((0 : ℚ) < VALIDATION_RANGES.developerCount.min ∧
      validateDeveloperCount (.num 0) ≠ none) ∧
    (VALIDATION_RANGES.solutionCost.max < (100000001 : ℚ) ∧
      validateSolutionCost (.num 100000001) ≠ none) ∧
    ((-1 : ℚ) < VALIDATION_RANGES.revenuePercentage.min ∧
      validateRevenuePercentage (some (.num (-1))) ≠ none) := by
  obtain ⟨⟨-, -, hd3, -⟩, -, -, ⟨-, -, -, hs4⟩, ⟨-, -, hr3, -⟩⟩ := C6_boundaries
  exact ⟨⟨by norm_num [VALIDATION_RANGES], hd3 0 (by norm_num [VALIDATION_RANGES])⟩,
    ⟨by norm_num [VALIDATION_RANGES], hs4 100000001 (by norm_num [VALIDATION_RANGES])⟩,
    ⟨by norm_num [VALIDATION_RANGES], hr3 (-1) (by norm_num [VALIDATION_RANGES])⟩⟩

/-- C7: a result of `calculateTraditionalBusiness` never carries the three
tech-specific fields, and a result of `calculateTechCompany` always
carries all three, for every input either entry point accepts. -/
theorem C7_tech_fields_iff :
    (∀ (s : Scenario) (r : CalculationResults),
      calculateTraditionalBusiness s = Except.ok r →
      r.grossMarginImprovement = none ∧ r.profitImpact = none ∧
      r.profitBoostPercentage = none) ∧
    (∀ (s : Scenario) (r : CalculationResults),
      calculateTechCompany s = Except.ok r →
      r.grossMarginImprovement.isSome = true ∧ r.profitImpact.isSome = true ∧
      r.profitBoostPercentage.isSome = true) := by
  constructor
  · intro s r h
    by_cases hv : 0 < (validateInputs s).length
    · simp [calculateTraditionalBusiness, hv] at h
    · simp [calculateTraditionalBusiness, hv] at h
      subst h
      exact ⟨rfl, rfl, rfl⟩
  · intro s r h
    by_cases hv : 0 < (validateInputs s).length
    · simp [calculateTechCompany, hv] at h
    · by_cases hf : isFalsyOpt s.revenuePercentage
      · simp [calculateTechCompany, hv, hf] at h
      · simp [calculateTechCompany, calculateTraditionalBusiness, hv, hf] at h
        subst h
        exact ⟨rfl, rfl, rfl⟩

/-- C7 witness: the traditional result on the bank scenario carries no
tech field; the result on the reference tech scenario carries all three. -/
theorem C7_tech_fields_iff_witness :
    (∃ r : CalculationResults,
      calculateTraditionalBusiness bankScenario = Except.ok r ∧
      r.grossMarginImprovement = none ∧ r.profitImpact = none ∧
      r.profitBoostPercentage = none) ∧
    (∃ r : CalculationResults,
      calculateTechCompany techScenario = Except.ok r ∧
      r.grossMarginImprovement.isSome = true ∧ r.profitImpact.isSome = true ∧
      r.profitBoostPercentage.isSome = true) := by
  have hv1 : validateScenario bankScenario = [] := by
    norm_num [validateScenario, validateDeveloperCount, validateAnnualCostPerDeveloper,
      validateCtsSwImprovement, validateSolutionCost, validateRevenuePercentage,
      validateCrossFieldConstraints, VALIDATION_RANGES, JSNum.isNaN, JSNum.isInteger,
      JSNum.jlt, JSNum.jgt, JSNum.jle, JSNum.jmul, JSNum.jdiv, bankScenario,
      objAssign, objInsert, traditional_ne_tech]
  have hv2 : validateScenario techScenario = [] := by
    norm_num [validateScenario, validateDeveloperCount, validateAnnualCostPerDeveloper,
      validateCtsSwImprovement, validateSolutionCost, validateRevenuePercentage,
      validateCrossFieldConstraints, VALIDATION_RANGES, JSNum.isNaN, JSNum.isInteger,
      JSNum.jlt, JSNum.jgt, JSNum.jle, JSNum.jmul, JSNum.jdiv, techScenario,
      objAssign, objInsert]
  have hrp : techScenario.revenuePercentage = some (JSNum.num 60) := rfl
  have hok1 : ∃ r, calculateTraditionalBusiness bankScenario = Except.ok r := by
    simp [calculateTraditionalBusiness, validateInputs, hv1]
  have hok2 : ∃ r, calculateTechCompany techScenario = Except.ok r := by
    simp [calculateTechCompany, calculateTraditionalBusiness, validateInputs, hv2,
      isFalsyOpt, JSNum.isFalsy, hrp]
  obtain ⟨r1, hr1⟩ := hok1
  obtain ⟨r2, hr2⟩ := hok2
  exact ⟨⟨r1, hr1, C7_tech_fields_iff.1 bankScenario r1 hr1⟩,
    ⟨r2, hr2, C7_tech_fields_iff.2 techScenario r2 hr2⟩⟩

/-- C8: each per-field validator rejects NaN, Infinity and -Infinity; NaN
is caught by the leading required-and-must-be-a-number guard (so the
not-a-number check precedes the range checks), and the infinities are
caught by the later shape or range checks — no non-finite value ever
passes silently. -/
theorem C8_nonfinite_guard :
    (validateDeveloperCount .nan = some msgDevCountRequired ∧
      (validateDeveloperCount .posInf).isSome = true ∧
      (validateDeveloperCount .negInf).isSome = true) ∧
    (validateAnnualCostPerDeveloper .nan = some msgCostRequired ∧
      (validateAnnualCostPerDeveloper .posInf).isSome = true ∧
      (validateAnnualCostPerDeveloper .negInf).isSome = true) ∧
    (validateCtsSwImprovement .nan = some msgCtsRequired ∧
      (validateCtsSwImprovement .posInf).isSome = true ∧
      (validateCtsSwImprovement .negInf).isSome = true) ∧
    (validateSolutionCost .nan = some msgSolRequired ∧
      (validateSolutionCost .posInf).isSome = true ∧
      (validateSolutionCost .negInf).isSome = true) ∧
    (validateRevenuePercentage (some .nan) = some msgRevRequired ∧
      (validateRevenuePercentage (some .posInf)).isSome = true ∧
      (validateRevenuePercentage (some .negInf)).isSome = true) :=
  ⟨⟨rfl, rfl, rfl⟩, ⟨rfl, rfl, rfl⟩, ⟨rfl, rfl, rfl⟩, ⟨rfl, rfl, rfl⟩, ⟨rfl, rfl, rfl⟩⟩

/-- C9 counterexample: a tech scenario with revenuePercentage exactly 0
and all other fields within their per-field ranges on which
`validateScenario` is nevertheless non-empty — the cost-ratio heuristic
(ratio 10 > 0.5) fires, so "all other fields within range" alone does not
give an empty error mapping as the claim states. -/
theorem C9_counterexample :
    ratioTechScenario.businessType = BusinessType.tech ∧
    ratioTechScenario.revenuePercentage = some (JSNum.num 0) ∧
    validateDeveloperCount ratioTechScenario.developerCount = none ∧
    validateAnnualCostPerDeveloper ratioTechScenario.annualCostPerDeveloper = none ∧
    validateCtsSwImprovement ratioTechScenario.ctsSwImprovementPercent = none ∧
    validateSolutionCost ratioTechScenario.solutionCost = none ∧
    validateRevenuePercentage ratioTechScenario.revenuePercentage = none ∧
    validateScenario ratioTechScenario ≠ [] := by
  have hval : validateScenario ratioTechScenario =
      [(keySolutionCost, msgSolHigh (.num 100000000) (.num 10000000))] := by
    norm_num [validateScenario, validateDeveloperCount, validateAnnualCostPerDeveloper,
      validateCtsSwImprovement, validateSolutionCost, validateRevenuePercentage,
      validateCrossFieldConstraints, VALIDATION_RANGES, JSNum.isNaN, JSNum.isInteger,
      JSNum.jlt, JSNum.jgt, JSNum.jle, JSNum.jmul, JSNum.jdiv, ratioTechScenario,
      objAssign, objInsert]
  refine ⟨rfl, rfl, ?_, ?_, ?_, ?_, ?_, by rw [hval]; simp⟩
  · norm_num [validateDeveloperCount, JSNum.isNaN, JSNum.isInteger, JSNum.jlt, JSNum.jgt,
      VALIDATION_RANGES, ratioTechScenario]
  · norm_num [validateAnnualCostPerDeveloper, JSNum.isNaN, JSNum.jle, JSNum.jlt, JSNum.jgt,
      VALIDATION_RANGES, ratioTechScenario]
  · norm_num [validateCtsSwImprovement, JSNum.isNaN, JSNum.jle, JSNum.jlt, JSNum.jgt,
      VALIDATION_RANGES, ratioTechScenario]
  · norm_num [validateSolutionCost, JSNum.isNaN, JSNum.jle, JSNum.jlt, JSNum.jgt,
      VALIDATION_RANGES, ratioTechScenario]
  · norm_num [validateRevenuePercentage, JSNum.isNaN, JSNum.jlt, JSNum.jgt,
      VALIDATION_RANGES, ratioTechScenario]

/-- C9 (amended): for a tech scenario with revenuePercentage exactly 0
whose other fields pass their per-field validators and on which no
cross-field heuristic fires, `validateScenario` returns the empty mapping
(0 is inside the inclusive [0,100] range and the validator has no
greater-than-zero rule for revenuePercentage), yet `calculateTechCompany`
still fails with the distinct presence message, because its truthiness
check treats 0 as missing. -/
theorem C9_zero_revenue (s : Scenario)
    (_hb : s.businessType = BusinessType.tech)
    (hrp : s.revenuePercentage = some (JSNum.num 0))
    (h1 : validateDeveloperCount s.developerCount = none)
    (h2 : validateAnnualCostPerDeveloper s.annualCostPerDeveloper = none)
    (h3 : validateCtsSwImprovement s.ctsSwImprovementPercent = none)
    (h4 : validateSolutionCost s.solutionCost = none)
    (hcf : validateCrossFieldConstraints s = []) :
    validateScenario s = [] ∧
    calculateTechCompany s = Except.error msgRevRequiredTech := by
  have hrev : validateRevenuePercentage s.revenuePercentage = none := by
    rw [hrp]
    norm_num [validateRevenuePercentage, JSNum.isNaN, JSNum.jlt, JSNum.jgt,
      VALIDATION_RANGES]
  have hv : validateScenario s = [] :=
    validateScenario_nil_of s h1 h2 h3 h4 (fun _ => hrev) hcf
  refine ⟨hv, ?_⟩
  simp [calculateTechCompany, validateInputs, hv, hrp, isFalsyOpt, JSNum.isFalsy]

/-- C9 witness: the reference tech scenario with revenuePercentage 0
instantiates the amended theorem. -/
theorem C9_zero_revenue_witness :
    techZeroRevScenario.businessType = BusinessType.tech ∧
    validateScenario techZeroRevScenario = [] ∧
    calculateTechCompany techZeroRevScenario = Except.error msgRevRequiredTech := by
  have h1 : validateDeveloperCount techZeroRevScenario.developerCount = none := by
    norm_num [validateDeveloperCount, JSNum.isNaN, JSNum.isInteger, JSNum.jlt, JSNum.jgt,
      VALIDATION_RANGES, techZeroRevScenario, techScenario]
  have h2 : validateAnnualCostPerDeveloper techZeroRevScenario.annualCostPerDeveloper = none := by
    norm_num [validateAnnualCostPerDeveloper, JSNum.isNaN, JSNum.jle, JSNum.jlt, JSNum.jgt,
      VALIDATION_RANGES, techZeroRevScenario, techScenario]
  have h3 : validateCtsSwImprovement techZeroRevScenario.ctsSwImprovementPercent = none := by
    norm_num [validateCtsSwImprovement, JSNum.isNaN, JSNum.jle, JSNum.jlt, JSNum.jgt,
      VALIDATION_RANGES, techZeroRevScenario, techScenario]
  have h4 : validateSolutionCost techZeroRevScenario.solutionCost = none := by
    norm_num [validateSolutionCost, JSNum.isNaN, JSNum.jle, JSNum.jlt, JSNum.jgt,
      VALIDATION_RANGES, techZeroRevScenario, techScenario]
  have hcf : validateCrossFieldConstraints techZeroRevScenario = [] := by
    norm_num [validateCrossFieldConstraints, JSNum.jmul, JSNum.jdiv, JSNum.jlt, JSNum.jgt,
      techZeroRevScenario, techScenario]
  have h := C9_zero_revenue techZeroRevScenario rfl rfl h1 h2 h3 h4 hcf
  exact ⟨rfl, h.1, h.2⟩

/-- C10: on any scenario the validator accepts, estimatedCurrentProfit =
totalDeveloperCost × 0.10 is strictly positive (developerCount ≥ 1 and
annualCostPerDeveloper ≥ 50,000), and consequently on every success path
of `calculateTechCompany` the zero-fallback branch of the
profitBoostPercentage guard is unreachable: the field always carries
(profitImpact / estimatedCurrentProfit) × 100. -/
theorem C10_profit_guard :
    (∀ s : Scenario, validateScenario s = [] →
      ∃ d c : ℚ, s.developerCount = JSNum.num d ∧
        s.annualCostPerDeveloper = JSNum.num c ∧
        0 < d * c * (10 / 100)) ∧
    (∀ (s : Scenario) (r : CalculationResults),
      calculateTechCompany s = Except.ok r →
      r.profitBoostPercentage = some
        ((JSNum.jdiv
          (JSNum.jmul (JSNum.jmul (JSNum.jmul s.developerCount s.annualCostPerDeveloper)
            (JSNum.jdiv s.ctsSwImprovementPercent (JSNum.num 100)))
            (JSNum.jdiv (s.revenuePercentage.getD JSNum.nan) (JSNum.num 100)))
          (JSNum.jmul (JSNum.jmul s.developerCount s.annualCostPerDeveloper)
            (JSNum.num (10 / 100)))).jmul (JSNum.num 100))) := by
  constructor
  · intro s hv
    obtain ⟨hp1, hp2, -, -, -, -⟩ := validateScenario_parts s hv
    obtain ⟨d, hd, -, hd1, -⟩ := validateDeveloperCount_none _ hp1
    obtain ⟨c, hc, hc1, -⟩ := validateAnnualCostPerDeveloper_none _ hp2
    have hd0 : (0 : ℚ) < d := lt_of_lt_of_le (by norm_num) hd1
    have hc0 : (0 : ℚ) < c := lt_of_lt_of_le (by norm_num) hc1
    exact ⟨d, c, hd, hc, mul_pos (mul_pos hd0 hc0) (by norm_num)⟩
  · intro s r h
    have hv : validateScenario s = [] := by
      by_contra hne
      have hlen : 0 < (validateInputs s).length :=
        List.length_pos.mpr hne
      simp [calculateTechCompany, hlen] at h
    obtain ⟨hp1, hp2, -, -, -, -⟩ := validateScenario_parts s hv
    obtain ⟨d, hd, -, hd1, -⟩ := validateDeveloperCount_none _ hp1
    obtain ⟨c, hc, hc1, -⟩ := validateAnnualCostPerDeveloper_none _ hp2
    have hd0 : (0 : ℚ) < d := lt_of_lt_of_le (by norm_num) hd1
    have hc0 : (0 : ℚ) < c := lt_of_lt_of_le (by norm_num) hc1
    have hpos : (0 : ℚ) < d * c * (10 / 100) :=
      mul_pos (mul_pos hd0 hc0) (by norm_num)
    by_cases hf : isFalsyOpt s.revenuePercentage
    · simp [calculateTechCompany, validateInputs, hv, hf] at h
    · simp [calculateTechCompany, calculateTraditionalBusiness, validateInputs, hv, hf] at h
      subst h
      simp [hd, hc, jmul_num, JSNum.jgt, JSNum.jlt, hpos]

/-- C10 witness: the reference tech scenario instantiates both parts;
its estimated current profit 6,000,000 is positive and the profit boost
evaluates to 90, not to the zero fallback. -/
theorem C10_profit_guard_witness :
    validateScenario techScenario = [] ∧
    (∃ d c : ℚ, techScenario.developerCount = JSNum.num d ∧
      techScenario.annualCostPerDeveloper = JSNum.num c ∧
      0 < d * c * (10 / 100)) ∧
    (∃ r : CalculationResults,
      calculateTechCompany techScenario = Except.ok r ∧
      r.profitBoostPercentage = some (JSNum.num 90)) := by
  have hv : validateScenario techScenario = [] := by
    norm_num [validateScenario, validateDeveloperCount, validateAnnualCostPerDeveloper,
      validateCtsSwImprovement, validateSolutionCost, validateRevenuePercentage,
      validateCrossFieldConstraints, VALIDATION_RANGES, JSNum.isNaN, JSNum.isInteger,
      JSNum.jlt, JSNum.jgt, JSNum.jle, JSNum.jmul, JSNum.jdiv, techScenario,
      objAssign, objInsert]
  have hrp : techScenario.revenuePercentage = some (JSNum.num 60) := rfl
  have hok : ∃ r, calculateTechCompany techScenario = Except.ok r := by
    simp [calculateTechCompany, calculateTraditionalBusiness, validateInputs, hv,
      isFalsyOpt, JSNum.isFalsy, hrp]
  obtain ⟨r, hr⟩ := hok
  refine ⟨hv, C10_profit_guard.1 techScenario hv, r, hr, ?_⟩
  rw [C10_profit_guard.2 techScenario r hr]
  norm_num [techScenario, JSNum.jmul, JSNum.jdiv]
